import Mathlib

/-!
Verification of the ADPF (Android Dynamic Performance Framework) coordination
facade from `app/src/main/cpp/adpf_manager.{h,cpp}` of the
adpf-game-adaptability codelab.

The `ADPFManager` C++ singleton is embedded shallowly: its member fields become
a Lean structure, its methods become pure functions from the old state (plus
the inputs the platform supplies: the current monotonic clock value, the
headroom the platform would report, the session object a creation call would
return, whether a reflective call raises) to the new state together with a
trace of the platform calls the method performs.

Modelling conventions:
  * JNI / NDK handles (`jobject`, `jmethodID`, `AThermalManager*`,
    `APerformanceHintSession*`, ...) are `Option Nat`: `none` is the null
    handle, `some h` a concrete non-null one.
  * Times are `Int` nanosecond readings of the monotonic clock
    (`std::chrono::high_resolution_clock::now()` values); durations are their
    differences, exactly as `duration_cast<nanoseconds>(...).count()` yields a
    signed 64-bit count.  The one-second refresh threshold
    `kThermalHeadroomUpdateThreshold` is 10^9 ns.
  * The thermal headroom is a `float` in the source; the claims under study
    treat it opaquely (only caching and refresh timing matter), so it is
    carried as an `Int` stand-in for the platform-reported bits.
  * The compile-time `__ANDROID_API__` tiers of the performance-hint code
    become the `HintTier` parameter: `direct34` (`__ANDROID_API__ >= 34`,
    direct `setThreads`), `recreate33` (`__ANDROID_API__ == 33`,
    close-then-recreate), `reflective` (`__ANDROID_API__ < 33`, JNI
    reflection).  The thermal code's tier (`__ANDROID_API__ >= 31` together
    with the runtime `android_get_device_api_level() >= 31` check) is a
    `Bool` named `direct`.
-/

/-- Platform-call trace events: one constructor per NDK / JNI boundary call
the manager can perform. -/
inductive PEvent where
  | listenerCall (listenerId : Nat) (prev cur : Int)
  | headroomQuery
  | reportActual (session : Option Nat) (durationNs : Int)
  | updateTarget (session : Option Nat) (targetNs : Int)
  | closeSession (session : Nat)
  | createSession (tids : List Int) (targetNs : Int)
  | setThreadsCall (session : Option Nat) (tids : List Int)
  | deleteGlobalRef (ref : Nat)
  | releaseThermalManager (mgr : Nat)
  | jniExceptionDescribe
  | jniExceptionClear
  deriving Repr, DecidableEq

/-- The member fields of the C++ `ADPFManager` class (adpf_manager.h, lines
161-189), with the static `thermalListener` pointer included as state. -/
structure ADPFManager where
  thermal_manager_ : Option Nat
  thermal_status_ : Int
  thermal_headroom_ : Int
  last_clock_ : Int
  app_ : Option Nat
  obj_power_service_ : Option Nat
  get_thermal_headroom_ : Option Nat
  perf_start_ : Int
  thread_ids_ : List Int
  hint_session_ : Option Nat
  last_target_ : Int
  obj_perfhint_service_ : Option Nat
  obj_perfhint_session_ : Option Nat
  set_threads_ : Option Nat
  thermalListener : Option Nat
  deriving Repr, DecidableEq

/-- Capability tier of the performance-hint code, fixed at compile time by
`__ANDROID_API__` in the source. -/
inductive HintTier where
  | direct34
  | recreate33
  | reflective
  deriving Repr, DecidableEq

/-- Values the platform supplies to a thread-set synchronization call: the
session object a creation call returns (null on failure), and whether the
reflective `setThreads` invocation raises a platform-side exception. -/
structure Platform where
  createdSession : Option Nat
  setThreadsRaises : Bool
  deriving Repr, DecidableEq

/-- `kThermalHeadroomUpdateThreshold = std::chrono::seconds(1)`, in
nanoseconds. -/
def kThermalHeadroomUpdateThreshold : Int := 1000000000

/-- `const jlong DEFAULT_TARGET_NS = 16666666` (adpf_manager.cpp), also the
initializer of `last_target_` (adpf_manager.h line 180). -/
def DEFAULT_TARGET_NS : Int := 16666666

/-- `int32_t ADPFManager::GetThermalStatus()` accessor. -/
def ADPFManager.GetThermalStatus (m : ADPFManager) : Int :=
  m.thermal_status_

/-- `float ADPFManager::GetThermalHeadroom()` accessor (headroom carried as
`Int`, see the module conventions). -/
def ADPFManager.GetThermalHeadroom (m : ADPFManager) : Int :=
  m.thermal_headroom_

/-- `void ADPFManager::SetThermalStatus(int32_t i)` (adpf_manager.cpp lines
238-245): cache the previous status, store the new one, and if a listener is
registered invoke it with `(previous, current)` — unconditionally, with no
dedup of `previous == current`. -/
def ADPFManager.SetThermalStatus (m : ADPFManager) (i : Int) :
    ADPFManager × List PEvent :=
  let prev_status_ := m.thermal_status_
  let current_status_ := i
  let m' := { m with thermal_status_ := i }
  match m.thermalListener with
  | some l => (m', [PEvent.listenerCall l prev_status_ current_status_])
  | none => (m', [])

/-- `void ADPFManager::SetThermalListener(listener)` (adpf_manager.cpp lines
247-249): replace the static listener pointer. -/
def ADPFManager.SetThermalListener (m : ADPFManager) (l : Option Nat) :
    ADPFManager :=
  { m with thermalListener := l }

/-- Run a sequence of `SetThermalStatus` calls, concatenating the traces. -/
def runSetThermalSeq (m : ADPFManager) (calls : List Int) :
    ADPFManager × List PEvent :=
  match calls with
  | [] => (m, [])
  | i :: rest =>
      let r := m.SetThermalStatus i
      let r2 := runSetThermalSeq r.1 rest
      (r2.1, r.2 ++ r2.2)

theorem setThermalStatus_status (m : ADPFManager) (i : Int) :
    (m.SetThermalStatus i).1.thermal_status_ = i := by
  unfold ADPFManager.SetThermalStatus
  cases m.thermalListener <;> rfl

theorem setThermalStatus_listener (m : ADPFManager) (i : Int) :
    (m.SetThermalStatus i).1.thermalListener = m.thermalListener := by
  unfold ADPFManager.SetThermalStatus
  cases m.thermalListener <;> rfl

theorem setThermalStatus_events (m : ADPFManager) (i : Int) (lid : Nat)
    (hl : m.thermalListener = some lid) :
    (m.SetThermalStatus i).2 =
      [PEvent.listenerCall lid m.thermal_status_ i] := by
  unfold ADPFManager.SetThermalStatus
  rw [hl]

theorem runSetThermalSeq_status (m : ADPFManager) (calls : List Int)
    (h : calls ≠ []) :
    (runSetThermalSeq m calls).1.thermal_status_ = calls.getLast h := by
  induction calls generalizing m with
  | nil => exact absurd rfl h
  | cons i rest ih =>
      cases rest with
      | nil =>
          simp [runSetThermalSeq, List.getLast, setThermalStatus_status]
      | cons j rest' =>
          rw [List.getLast_cons (by simp)]
          simpa [runSetThermalSeq] using
            ih (m.SetThermalStatus i).1 (by simp)

theorem runSetThermalSeq_events (m : ADPFManager) (calls : List Int)
    (lid : Nat) (hl : m.thermalListener = some lid) :
    (runSetThermalSeq m calls).2 =
      ((m.thermal_status_ :: calls).zip calls).map
        (fun pc => PEvent.listenerCall lid pc.1 pc.2) := by
  induction calls generalizing m with
  | nil => simp [runSetThermalSeq]
  | cons i rest ih =>
      have h1 := setThermalStatus_events m i lid hl
      have h2 := setThermalStatus_status m i
      have h3 : (m.SetThermalStatus i).1.thermalListener = some lid := by
        rw [setThermalStatus_listener]; exact hl
      simp only [runSetThermalSeq, h1, ih (m.SetThermalStatus i).1 h3, h2,
        List.zip_cons_cons, List.map_cons, List.cons_append, List.nil_append]

/-- C1: after any nonempty sequence of `SetThermalStatus(i)` calls,
`GetThermalStatus()` returns the most recently set value, and the trace holds
exactly one listener invocation per call, the k-th carrying
`(previous, current)` equal to the value cached before that call and the value
set by it — also when the two coincide, since the invocation is not guarded by
a change check. -/
theorem c1_setThermalStatus_cache_and_listener (m : ADPFManager)
    (calls : List Int) (lid : Nat) (hl : m.thermalListener = some lid)
    (h : calls ≠ []) :
    (runSetThermalSeq m calls).1.GetThermalStatus = calls.getLast h ∧
    (runSetThermalSeq m calls).2 =
      ((m.GetThermalStatus :: calls).zip calls).map
        (fun pc => PEvent.listenerCall lid pc.1 pc.2) :=
  ⟨runSetThermalSeq_status m calls h, runSetThermalSeq_events m calls lid hl⟩

/-- A concrete manager state used by the closed witness statements: fresh
after construction (adpf_manager.h lines 131-152) with a listener registered
and a direct-tier session in hand. -/
def sampleManager : ADPFManager where
  thermal_manager_ := some 7
  thermal_status_ := 0
  thermal_headroom_ := 0
  last_clock_ := 0
  app_ := some 1
  obj_power_service_ := some 2
  get_thermal_headroom_ := some 3
  perf_start_ := 0
  thread_ids_ := [100]
  hint_session_ := some 4
  last_target_ := 16666666
  obj_perfhint_service_ := some 5
  obj_perfhint_session_ := some 6
  set_threads_ := some 8
  thermalListener := some 9

theorem c1_witness :
    sampleManager.thermalListener = some 9 ∧
    ([1, 2, 2] : List Int) ≠ [] ∧
    (runSetThermalSeq sampleManager [1, 2, 2]).1.GetThermalStatus = 2 ∧
    (runSetThermalSeq sampleManager [1, 2, 2]).2 =
      [PEvent.listenerCall 9 0 1, PEvent.listenerCall 9 1 2,
       PEvent.listenerCall 9 2 2] := by
  have h := c1_setThermalStatus_cache_and_listener sampleManager [1, 2, 2] 9
    (by decide) (by decide)
  refine ⟨by decide, by decide, ?_, ?_⟩
  · rw [h.1]; decide
  · rw [h.2]; decide

/-- `float ADPFManager::UpdateThermalStatusHeadRoom()` (adpf_manager.cpp lines
125-147).  `direct = true` is the NDK path (`__ANDROID_API__ >= 31` build and
`android_get_device_api_level() >= 31`): query `AThermal_getThermalHeadroom`
and cache.  `direct = false` is the JNI path: return 0 without any platform
call when `app_` is null or `get_thermal_headroom_` is 0, otherwise call the
reflective `getThermalHeadroom` and cache.  `platformHeadroom` is the value
the platform would report. -/
def ADPFManager.UpdateThermalStatusHeadRoom (direct : Bool) (m : ADPFManager)
    (platformHeadroom : Int) : ADPFManager × List PEvent :=
  if direct then
    ({ m with thermal_headroom_ := platformHeadroom }, [PEvent.headroomQuery])
  else if m.app_ = none ∨ m.get_thermal_headroom_ = none then
    (m, [])
  else
    ({ m with thermal_headroom_ := platformHeadroom }, [PEvent.headroomQuery])

/-- `void ADPFManager::Monitor()` (adpf_manager.cpp lines 56-64): compare the
monotonic clock against `last_clock_`; when at least the threshold has
passed, call `UpdateThermalStatusHeadRoom` and stamp `last_clock_`.  The
returned `Bool` records which branch ran, i.e. whether a headroom refresh was
performed on this call. -/
def ADPFManager.Monitor (direct : Bool) (m : ADPFManager)
    (now platformHeadroom : Int) : ADPFManager × List PEvent × Bool :=
  let past := now - m.last_clock_
  if past ≥ kThermalHeadroomUpdateThreshold then
    let r := m.UpdateThermalStatusHeadRoom direct platformHeadroom
    ({ r.1 with last_clock_ := now }, r.2, true)
  else
    (m, [], false)

/-- Run a sequence of `Monitor` calls; each list entry supplies the clock
reading and platform headroom of that call.  Returns the final state, the
concatenated trace and the number of calls that performed a refresh. -/
def runMonitorSeq (direct : Bool) (m : ADPFManager)
    (calls : List (Int × Int)) : ADPFManager × List PEvent × Nat :=
  match calls with
  | [] => (m, [], 0)
  | c :: rest =>
      let r := m.Monitor direct c.1 c.2
      let r2 := runMonitorSeq direct r.1 rest
      (r2.1, r.2.1 ++ r2.2.1, (if r.2.2 then 1 else 0) + r2.2.2)

theorem monitor_last_clock_of_refresh (direct : Bool) (m : ADPFManager)
    (now hr : Int) (h : (m.Monitor direct now hr).2.2 = true) :
    (m.Monitor direct now hr).1.last_clock_ = now := by
  unfold ADPFManager.Monitor at *
  by_cases hc : now - m.last_clock_ ≥ kThermalHeadroomUpdateThreshold
  · simp [hc]
  · simp [hc] at h

theorem monitor_no_refresh (direct : Bool) (m : ADPFManager) (now hr : Int)
    (h : ¬ now - m.last_clock_ ≥ kThermalHeadroomUpdateThreshold) :
    (m.Monitor direct now hr).1 = m ∧
      (m.Monitor direct now hr).2.2 = false := by
  unfold ADPFManager.Monitor
  simp [h]

theorem monitor_refresh (direct : Bool) (m : ADPFManager) (now hr : Int)
    (h : now - m.last_clock_ ≥ kThermalHeadroomUpdateThreshold) :
    (m.Monitor direct now hr).2.2 = true := by
  unfold ADPFManager.Monitor
  simp [h]

theorem runMonitorSeq_zero_of_recent (direct : Bool) (m : ADPFManager)
    (lo : Int) (calls : List (Int × Int))
    (hm : lo ≤ m.last_clock_ ∧ m.last_clock_ < lo + kThermalHeadroomUpdateThreshold)
    (hc : ∀ c ∈ calls, lo ≤ c.1 ∧ c.1 < lo + kThermalHeadroomUpdateThreshold) :
    (runMonitorSeq direct m calls).2.2 = 0 := by
  induction calls generalizing m with
  | nil => rfl
  | cons c rest ih =>
      have hcc := hc c (by simp)
      have hlt : ¬ c.1 - m.last_clock_ ≥ kThermalHeadroomUpdateThreshold := by
        omega
      have h0 := monitor_no_refresh direct m c.1 c.2 hlt
      have hrest := ih m hm (fun d hd => hc d (by simp [hd]))
      simp [runMonitorSeq, h0.1, h0.2, hrest]

theorem runMonitorSeq_atMostOne (direct : Bool) (m : ADPFManager) (lo : Int)
    (calls : List (Int × Int))
    (hc : ∀ c ∈ calls, lo ≤ c.1 ∧ c.1 < lo + kThermalHeadroomUpdateThreshold) :
    (runMonitorSeq direct m calls).2.2 ≤ 1 := by
  induction calls generalizing m with
  | nil => simp [runMonitorSeq]
  | cons c rest ih =>
      have hcc := hc c (by simp)
      by_cases hdue : c.1 - m.last_clock_ ≥ kThermalHeadroomUpdateThreshold
      · have hflag := monitor_refresh direct m c.1 c.2 hdue
        have hclk := monitor_last_clock_of_refresh direct m c.1 c.2 hflag
        have hz := runMonitorSeq_zero_of_recent direct
          (m.Monitor direct c.1 c.2).1 lo rest
          (by rw [hclk]; exact hcc)
          (fun d hd => hc d (by simp [hd]))
        simp [runMonitorSeq, hflag, hz]
      · have h0 := monitor_no_refresh direct m c.1 c.2 hdue
        have hrest := ih m (fun d hd => hc d (by simp [hd]))
        simp [runMonitorSeq, h0.1, h0.2, hrest]

/-- C4: when all clock readings of a run of `Monitor` calls lie inside a
window strictly narrower than the one-second threshold, at most one call
refreshes the headroom; and a single `Monitor` call whose clock reading is at
least the threshold past `last_clock_` (the stamp of the last refresh)
performs exactly one refresh. -/
theorem c4_monitor_rate_limited (direct : Bool) (m : ADPFManager) (lo : Int)
    (calls : List (Int × Int)) (now hr : Int)
    (hc : ∀ c ∈ calls, lo ≤ c.1 ∧ c.1 < lo + kThermalHeadroomUpdateThreshold)
    (hdue : now - m.last_clock_ ≥ kThermalHeadroomUpdateThreshold) :
    (runMonitorSeq direct m calls).2.2 ≤ 1 ∧
    (m.Monitor direct now hr).2.2 = true :=
  ⟨runMonitorSeq_atMostOne direct m lo calls hc,
   monitor_refresh direct m now hr hdue⟩

theorem c4_witness :
    (∀ c ∈ ([((50 : Int), (5 : Int)), (60, 6), (999999999, 7)] : List (Int × Int)),
        (0 : Int) ≤ c.1 ∧ c.1 < 0 + kThermalHeadroomUpdateThreshold) ∧
    ((2000000000 : Int) - sampleManager.last_clock_ ≥ kThermalHeadroomUpdateThreshold) ∧
    (runMonitorSeq true sampleManager [((50 : Int), (5 : Int)), (60, 6), (999999999, 7)]).2.2 ≤ 1 ∧
    (sampleManager.Monitor true 2000000000 8).2.2 = true := by
  have h := c4_monitor_rate_limited true sampleManager 0
    [((50 : Int), (5 : Int)), (60, 6), (999999999, 7)] 2000000000 8
    (by decide) (by decide)
  exact ⟨by decide, by decide, h.1, h.2⟩

/-- C10: `Monitor` can change only the cached headroom and the rate-limit
clock stamp; every other field — in particular the cached thermal status, the
registered listener and the thread-id set — is unchanged, on both thermal
tiers and also on a due tick. -/
theorem c10_monitor_frame (direct : Bool) (m : ADPFManager)
    (now hr : Int) :
    ((m.Monitor direct now hr).1.thermal_status_ = m.thermal_status_) ∧
    ((m.Monitor direct now hr).1.thermalListener = m.thermalListener) ∧
    ((m.Monitor direct now hr).1.thread_ids_ = m.thread_ids_) ∧
    ((m.Monitor direct now hr).1.thermal_manager_ = m.thermal_manager_) ∧
    ((m.Monitor direct now hr).1.app_ = m.app_) ∧
    ((m.Monitor direct now hr).1.obj_power_service_ = m.obj_power_service_) ∧
    ((m.Monitor direct now hr).1.get_thermal_headroom_ = m.get_thermal_headroom_) ∧
    ((m.Monitor direct now hr).1.perf_start_ = m.perf_start_) ∧
    ((m.Monitor direct now hr).1.hint_session_ = m.hint_session_) ∧
    ((m.Monitor direct now hr).1.last_target_ = m.last_target_) ∧
    ((m.Monitor direct now hr).1.obj_perfhint_service_ = m.obj_perfhint_service_) ∧
    ((m.Monitor direct now hr).1.obj_perfhint_session_ = m.obj_perfhint_session_) ∧
    ((m.Monitor direct now hr).1.set_threads_ = m.set_threads_) := by
  unfold ADPFManager.Monitor ADPFManager.UpdateThermalStatusHeadRoom
  by_cases hdue : now - m.last_clock_ ≥ kThermalHeadroomUpdateThreshold <;>
    by_cases hd : direct <;>
      by_cases hnull : m.app_ = none ∨ m.get_thermal_headroom_ = none <;>
        simp [hdue, hd, hnull]

/-- `void ADPFManager::BeginPerfHintSession()` (adpf_manager.cpp lines
254-256): capture the monotonic start timestamp. -/
def ADPFManager.BeginPerfHintSession (m : ADPFManager) (now : Int) :
    ADPFManager :=
  { m with perf_start_ := now }

/-- `void ADPFManager::EndPerfHintSession(jlong target_duration_ns)`
(adpf_manager.cpp lines 257-278).  On the `__ANDROID_API__ >= 33` builds
(tiers `direct34` and `recreate33`) the elapsed duration is reported and the
target updated unconditionally on `hint_session_`, with no null check.  On
the reflective build the two JNI calls happen only when
`obj_perfhint_session_` is non-null. -/
def ADPFManager.EndPerfHintSession (tier : HintTier) (m : ADPFManager)
    (now target_duration_ns : Int) : ADPFManager × List PEvent :=
  match tier with
  | HintTier.direct34 | HintTier.recreate33 =>
      let dur := now - m.perf_start_
      (m, [PEvent.reportActual m.hint_session_ dur,
           PEvent.updateTarget m.hint_session_ target_duration_ns])
  | HintTier.reflective =>
      match m.obj_perfhint_session_ with
      | some s =>
          let dur := now - m.perf_start_
          (m, [PEvent.reportActual (some s) dur,
               PEvent.updateTarget (some s) target_duration_ns])
      | none => (m, [])

/-- `void ADPFManager::RegisterThreadIdsToHintSession()` (adpf_manager.cpp
lines 292-328).  `__ANDROID_API__ >= 34`: `APerformanceHint_setThreads` on
the existing session.  `__ANDROID_API__ == 33`: close the session when
non-null, then recreate it from `hint_manager_` with the whole `thread_ids_`
array and `last_target_`; the session the platform returns replaces
`hint_session_`.  Reflective build: when `set_threads_` is null, delete the
old session global ref (when held) and recreate via the reflective
`createHintSession` with `DEFAULT_TARGET_NS`; otherwise invoke the reflective
`setThreads` and, when that raised, describe and clear the pending exception.
The `Bool` of the result is the JNI pending-exception flag as the method
returns. -/
def ADPFManager.RegisterThreadIdsToHintSession (tier : HintTier)
    (p : Platform) (m : ADPFManager) : ADPFManager × List PEvent × Bool :=
  match tier with
  | HintTier.direct34 =>
      (m, [PEvent.setThreadsCall m.hint_session_ m.thread_ids_], false)
  | HintTier.recreate33 =>
      let closeEvts := match m.hint_session_ with
        | some s => [PEvent.closeSession s]
        | none => []
      ({ m with hint_session_ := p.createdSession },
       closeEvts ++ [PEvent.createSession m.thread_ids_ m.last_target_],
       false)
  | HintTier.reflective =>
      match m.set_threads_ with
      | none =>
          let delEvts := match m.obj_perfhint_session_ with
            | some r => [PEvent.deleteGlobalRef r]
            | none => []
          ({ m with obj_perfhint_session_ := p.createdSession },
           delEvts ++ [PEvent.createSession m.thread_ids_ DEFAULT_TARGET_NS],
           false)
      | some _ =>
          if p.setThreadsRaises then
            (m, [PEvent.setThreadsCall m.obj_perfhint_session_ m.thread_ids_,
                 PEvent.jniExceptionDescribe, PEvent.jniExceptionClear],
             false)
          else
            (m, [PEvent.setThreadsCall m.obj_perfhint_session_ m.thread_ids_],
             false)

/-- `void ADPFManager::AddThreadIdToHintSession(int32_t tid)`
(adpf_manager.cpp lines 280-284): `push_back` then synchronize. -/
def ADPFManager.AddThreadIdToHintSession (tier : HintTier) (p : Platform)
    (m : ADPFManager) (tid : Int) : ADPFManager × List PEvent × Bool :=
  ADPFManager.RegisterThreadIdsToHintSession tier p
    { m with thread_ids_ := m.thread_ids_ ++ [tid] }

/-- `void ADPFManager::RemoveThreadIdFromHintSession(int32_t tid)`
(adpf_manager.cpp lines 286-290): erase-remove all occurrences of `tid`, then
synchronize. -/
def ADPFManager.RemoveThreadIdFromHintSession (tier : HintTier) (p : Platform)
    (m : ADPFManager) (tid : Int) : ADPFManager × List PEvent × Bool :=
  ADPFManager.RegisterThreadIdsToHintSession tier p
    { m with thread_ids_ := m.thread_ids_.filter (fun t => decide (t ≠ tid)) }

/-- The live platform session handle the `EndPerfHintSession` calls address on
a given tier: `hint_session_` on the `__ANDROID_API__ >= 33` builds,
`obj_perfhint_session_` on the reflective build. -/
def ADPFManager.liveSession (tier : HintTier) (m : ADPFManager) :
    Option Nat :=
  match tier with
  | HintTier.reflective => m.obj_perfhint_session_
  | _ => m.hint_session_

/-- C7: after `BeginPerfHintSession` at clock `t0` and `EndPerfHintSession`
at clock `t1 ≥ t0` with a live session `s`, the method reports the actual
elapsed duration `t1 - t0 ≥ 0` to `s` and then updates the target duration of
`s` with exactly the passed value, on every tier. -/
theorem c7_begin_end_reports (tier : HintTier) (m : ADPFManager)
    (t0 t1 target : Int) (s : Nat)
    (hs : (m.BeginPerfHintSession t0).liveSession tier = some s)
    (hmono : t0 ≤ t1) :
    (((m.BeginPerfHintSession t0).EndPerfHintSession tier t1 target).2 =
      [PEvent.reportActual (some s) (t1 - t0),
       PEvent.updateTarget (some s) target]) ∧
    0 ≤ t1 - t0 := by
  refine ⟨?_, by omega⟩
  cases tier <;>
    simp only [ADPFManager.liveSession, ADPFManager.BeginPerfHintSession] at hs <;>
    simp [ADPFManager.EndPerfHintSession, ADPFManager.BeginPerfHintSession, hs]

theorem c7_witness :
    ((sampleManager.BeginPerfHintSession 10).liveSession HintTier.recreate33
        = some 4) ∧
    ((10 : Int) ≤ 25) ∧
    (((sampleManager.BeginPerfHintSession 10).EndPerfHintSession
        HintTier.recreate33 25 16666666).2 =
      [PEvent.reportActual (some 4) 15,
       PEvent.updateTarget (some 4) 16666666]) ∧
    (0 : Int) ≤ 15 := by
  have h := c7_begin_end_reports HintTier.recreate33 sampleManager 10 25
    16666666 4 (by decide) (by decide)
  exact ⟨by decide, by decide, h.1, by decide⟩

/-- Fresh state right after the private constructor (adpf_manager.h lines
131-152), before `SetApplication`: every handle null, status and headroom 0,
`last_target_` at its in-class initializer, empty thread-id vector. -/
def freshManager : ADPFManager where
  thermal_manager_ := none
  thermal_status_ := 0
  thermal_headroom_ := 0
  last_clock_ := 0
  app_ := none
  obj_power_service_ := none
  get_thermal_headroom_ := none
  perf_start_ := 0
  thread_ids_ := []
  hint_session_ := none
  last_target_ := 16666666
  obj_perfhint_service_ := none
  obj_perfhint_session_ := none
  set_threads_ := none
  thermalListener := none

theorem c2_counterexample :
    freshManager.hint_session_ = none ∧
    freshManager.obj_perfhint_session_ = none ∧
    (freshManager.EndPerfHintSession HintTier.recreate33 5 100).2 =
      [PEvent.reportActual none 5, PEvent.updateTarget none 100] := by
  decide

/-- C2 (amended): on the reflective tier, `EndPerfHintSession` with no live
session is a silent no-op — state unchanged and no platform call.  (On the
`__ANDROID_API__ >= 33` tiers the report and update calls are issued
unconditionally, passing the null `hint_session_` handle, as
`c2_counterexample` shows.) -/
theorem c2_end_noop_reflective (m : ADPFManager) (now target : Int)
    (h : m.obj_perfhint_session_ = none) :
    m.EndPerfHintSession HintTier.reflective now target = (m, []) := by
  simp [ADPFManager.EndPerfHintSession, h]

theorem c2_witness :
    freshManager.obj_perfhint_session_ = none ∧
    freshManager.EndPerfHintSession HintTier.reflective 5 100 =
      (freshManager, []) :=
  ⟨by decide, c2_end_noop_reflective freshManager 5 100 (by decide)⟩

theorem c3_counterexample :
    ((sampleManager.EndPerfHintSession HintTier.recreate33 20 100).2 =
      [PEvent.reportActual (some 4) 20, PEvent.updateTarget (some 4) 100]) ∧
    ((ADPFManager.AddThreadIdToHintSession HintTier.recreate33
        ⟨some 11, false⟩
        (sampleManager.EndPerfHintSession HintTier.recreate33 20 100).1
        5).2.1 =
      [PEvent.closeSession 4,
       PEvent.createSession [100, 5] 16666666]) ∧
    (16666666 : Int) ≠ 100 := by
  decide

/-- C3 (amended): on the session-recreation tier with a live session `s`,
`AddThreadIdToHintSession(tid)` performs exactly one close-then-create pair —
close of `s`, then creation with the full updated thread-id list and the
stored `last_target_` value; but `last_target_` is never written after its
initialization to the default 16666666 ns: in particular
`EndPerfHintSession(targetNs)` leaves it unchanged, so the recreation target
is the default, not the most recently passed target. -/
theorem c3_recreate_close_create (m : ADPFManager) (p : Platform)
    (tid : Int) (s : Nat) (hs : m.hint_session_ = some s) :
    ((ADPFManager.AddThreadIdToHintSession HintTier.recreate33 p m tid).2.1 =
      [PEvent.closeSession s,
       PEvent.createSession (m.thread_ids_ ++ [tid]) m.last_target_]) ∧
    (∀ (m' : ADPFManager) (tier : HintTier) (now t : Int),
      (m'.EndPerfHintSession tier now t).1.last_target_ = m'.last_target_) := by
  constructor
  · simp [ADPFManager.AddThreadIdToHintSession,
      ADPFManager.RegisterThreadIdsToHintSession, hs]
  · intro m' tier now t
    cases tier
    case direct34 => rfl
    case recreate33 => rfl
    case reflective =>
      cases hops : m'.obj_perfhint_session_ <;>
        simp [ADPFManager.EndPerfHintSession, hops]

theorem c3_witness :
    sampleManager.hint_session_ = some 4 ∧
    ((ADPFManager.AddThreadIdToHintSession HintTier.recreate33
        ⟨some 11, false⟩ sampleManager 5).2.1 =
      [PEvent.closeSession 4, PEvent.createSession [100, 5] 16666666]) ∧
    (sampleManager.EndPerfHintSession HintTier.recreate33 20 100).1.last_target_
      = 16666666 := by
  have h := c3_recreate_close_create sampleManager ⟨some 11, false⟩ 5 4
    (by decide)
  refine ⟨by decide, ?_, ?_⟩
  · rw [h.1]; decide
  · rw [h.2 sampleManager HintTier.recreate33 20 100]; decide

theorem register_thread_ids_unchanged (tier : HintTier) (p : Platform)
    (m : ADPFManager) :
    (ADPFManager.RegisterThreadIdsToHintSession tier p m).1.thread_ids_ =
      m.thread_ids_ := by
  cases tier
  case direct34 => rfl
  case recreate33 => rfl
  case reflective =>
      cases hst : m.set_threads_ <;>
        simp [ADPFManager.RegisterThreadIdsToHintSession, hst]
      by_cases hr : p.setThreadsRaises <;> simp [hr]

theorem add_thread_ids (tier : HintTier) (p : Platform) (m : ADPFManager)
    (tid : Int) :
    (ADPFManager.AddThreadIdToHintSession tier p m tid).1.thread_ids_ =
      m.thread_ids_ ++ [tid] := by
  unfold ADPFManager.AddThreadIdToHintSession
  rw [register_thread_ids_unchanged]

theorem filter_append_single_eraseAll (l : List Int) (tid : Int)
    (h : tid ∉ l) :
    (l ++ [tid]).filter (fun t => decide (t ≠ tid)) = l := by
  rw [List.filter_append]
  have h1 : ([tid].filter (fun t => decide (t ≠ tid))) = [] := by simp
  have h2 : l.filter (fun t => decide (t ≠ tid)) = l := by
    rw [List.filter_eq_self]
    intro a ha
    simp only [decide_eq_true_eq]
    exact fun hEq => h (hEq ▸ ha)
  rw [h1, h2, List.append_nil]

theorem c5_counterexample :
    ((100 : Int) ∈ sampleManager.thread_ids_) ∧
    ((100 : Int) ∉
      (ADPFManager.RemoveThreadIdFromHintSession HintTier.direct34
        ⟨some 11, false⟩
        (ADPFManager.AddThreadIdToHintSession HintTier.direct34
          ⟨some 11, false⟩ sampleManager 100).1
        100).1.thread_ids_) ∧
    ((ADPFManager.RemoveThreadIdFromHintSession HintTier.direct34
        ⟨some 11, false⟩
        (ADPFManager.AddThreadIdToHintSession HintTier.direct34
          ⟨some 11, false⟩ sampleManager 100).1
        100).2.1 =
      [PEvent.setThreadsCall (some 4) []]) := by
  decide

/-- C5 (amended): `AddThreadIdToHintSession` appends the tid,
`RemoveThreadIdFromHintSession` erases all occurrences, and each call then
synchronizes the full set to the platform; for every starting set NOT already
containing `tid`, add(tid) followed by remove(tid) restores the thread-id set
exactly, and the removal's synchronization is the synchronization of the
original set.  (When `tid` is already present the erase-all removal also
drops the pre-existing occurrence, so the original set is not restored —
`c5_counterexample`.) -/
theorem c5_add_then_remove (tier : HintTier) (p q : Platform)
    (m : ADPFManager) (tid : Int) (h : tid ∉ m.thread_ids_) :
    ((ADPFManager.AddThreadIdToHintSession tier p m tid).1.thread_ids_ =
      m.thread_ids_ ++ [tid]) ∧
    (ADPFManager.RemoveThreadIdFromHintSession tier q
        (ADPFManager.AddThreadIdToHintSession tier p m tid).1 tid =
      ADPFManager.RegisterThreadIdsToHintSession tier q
        { (ADPFManager.AddThreadIdToHintSession tier p m tid).1 with
            thread_ids_ := m.thread_ids_ }) := by
  refine ⟨add_thread_ids tier p m tid, ?_⟩
  unfold ADPFManager.RemoveThreadIdFromHintSession
  congr 1
  congr 1
  rw [add_thread_ids tier p m tid]
  exact filter_append_single_eraseAll m.thread_ids_ tid h

theorem c5_witness :
    ((200 : Int) ∉ sampleManager.thread_ids_) ∧
    ((ADPFManager.AddThreadIdToHintSession HintTier.direct34 ⟨some 11, false⟩
        sampleManager 200).1.thread_ids_ = [100, 200]) ∧
    ((ADPFManager.RemoveThreadIdFromHintSession HintTier.direct34
        ⟨some 11, false⟩
        (ADPFManager.AddThreadIdToHintSession HintTier.direct34
          ⟨some 11, false⟩ sampleManager 200).1 200).1.thread_ids_ = [100]) ∧
    ((ADPFManager.RemoveThreadIdFromHintSession HintTier.direct34
        ⟨some 11, false⟩
        (ADPFManager.AddThreadIdToHintSession HintTier.direct34
          ⟨some 11, false⟩ sampleManager 200).1 200).2.1 =
      [PEvent.setThreadsCall (some 4) [100]]) := by
  have h := c5_add_then_remove HintTier.direct34 ⟨some 11, false⟩
    ⟨some 11, false⟩ sampleManager 200 (by decide)
  refine ⟨by decide, ?_, ?_, ?_⟩
  · rw [h.1]; decide
  · rw [h.2]; decide
  · rw [h.2]; decide

/-- C8: on the reflective tier with the `setThreads` method handle resolved,
the platform-side exception a `setThreads` invocation raises is checked,
described and cleared at the call site: the trace of both
`AddThreadIdToHintSession` and `RemoveThreadIdFromHintSession` ends with the
describe/clear pair whenever the call raised, and the JNI pending-exception
flag as either method returns is false — in particular nothing propagates to
their caller, raise or not. -/
theorem c8_reflective_exception_cleared (p : Platform) (m : ADPFManager)
    (tid : Int) (sth : Nat) (h : m.set_threads_ = some sth) :
    ((ADPFManager.AddThreadIdToHintSession HintTier.reflective p m tid).2.2
      = false) ∧
    ((ADPFManager.RemoveThreadIdFromHintSession HintTier.reflective p m tid).2.2
      = false) ∧
    (p.setThreadsRaises = true →
      (ADPFManager.AddThreadIdToHintSession HintTier.reflective p m tid).2.1 =
        [PEvent.setThreadsCall m.obj_perfhint_session_ (m.thread_ids_ ++ [tid]),
         PEvent.jniExceptionDescribe, PEvent.jniExceptionClear]) ∧
    (p.setThreadsRaises = true →
      (ADPFManager.RemoveThreadIdFromHintSession HintTier.reflective p m tid).2.1 =
        [PEvent.setThreadsCall m.obj_perfhint_session_
           (m.thread_ids_.filter (fun t => decide (t ≠ tid))),
         PEvent.jniExceptionDescribe, PEvent.jniExceptionClear]) := by
  unfold ADPFManager.AddThreadIdToHintSession
    ADPFManager.RemoveThreadIdFromHintSession
    ADPFManager.RegisterThreadIdsToHintSession
  refine ⟨?_, ?_, ?_, ?_⟩ <;>
    simp only [h] <;> by_cases hr : p.setThreadsRaises <;> simp [hr]

theorem c8_witness :
    sampleManager.set_threads_ = some 8 ∧
    ((ADPFManager.AddThreadIdToHintSession HintTier.reflective
        ⟨some 11, true⟩ sampleManager 200).2.2 = false) ∧
    ((ADPFManager.RemoveThreadIdFromHintSession HintTier.reflective
        ⟨some 11, true⟩ sampleManager 100).2.2 = false) ∧
    ((ADPFManager.AddThreadIdToHintSession HintTier.reflective
        ⟨some 11, true⟩ sampleManager 200).2.1 =
      [PEvent.setThreadsCall (some 6) [100, 200],
       PEvent.jniExceptionDescribe, PEvent.jniExceptionClear]) := by
  have h := c8_reflective_exception_cleared ⟨some 11, true⟩ sampleManager 200
    8 (by decide)
  refine ⟨by decide, h.1, by decide, ?_⟩
  rw [h.2.2.1 (by decide)]; decide

/-- A record update that rewrites `thread_ids_` to the value it already holds
is the identity. -/
theorem update_thread_ids_self (m : ADPFManager) (l : List Int)
    (h : l = m.thread_ids_) : { m with thread_ids_ := l } = m := by
  cases m
  simpa using h

/-- C9: removing a tid that is not in the thread-id set still performs the
full thread-set synchronization — `RemoveThreadIdFromHintSession` coincides
with a bare `RegisterThreadIdsToHintSession` on the unchanged state, on every
tier; on the session-recreation tier with a live session `s` this is a close
of `s` followed by a re-creation with the unchanged list and the stored
target. -/
theorem c9_remove_absent_still_syncs (tier : HintTier) (p : Platform)
    (m : ADPFManager) (tid : Int) (h : tid ∉ m.thread_ids_) :
    (ADPFManager.RemoveThreadIdFromHintSession tier p m tid =
      ADPFManager.RegisterThreadIdsToHintSession tier p m) ∧
    (∀ s : Nat, m.hint_session_ = some s →
      (ADPFManager.RemoveThreadIdFromHintSession HintTier.recreate33 p m tid).2.1 =
        [PEvent.closeSession s,
         PEvent.createSession m.thread_ids_ m.last_target_]) := by
  have hfil : m.thread_ids_.filter (fun t => decide (t ≠ tid)) =
      m.thread_ids_ := by
    rw [List.filter_eq_self]
    intro a ha
    simp only [decide_eq_true_eq]
    exact fun hEq => h (hEq ▸ ha)
  have heq : ADPFManager.RemoveThreadIdFromHintSession tier p m tid =
      ADPFManager.RegisterThreadIdsToHintSession tier p m := by
    unfold ADPFManager.RemoveThreadIdFromHintSession
    rw [update_thread_ids_self m _ hfil]
  refine ⟨heq, fun s hs => ?_⟩
  have heq' : ADPFManager.RemoveThreadIdFromHintSession HintTier.recreate33
      p m tid = ADPFManager.RegisterThreadIdsToHintSession HintTier.recreate33
      p m := by
    unfold ADPFManager.RemoveThreadIdFromHintSession
    rw [update_thread_ids_self m _ hfil]
  rw [heq']
  simp [ADPFManager.RegisterThreadIdsToHintSession, hs]

theorem c9_witness :
    ((5 : Int) ∉ sampleManager.thread_ids_) ∧
    (ADPFManager.RemoveThreadIdFromHintSession HintTier.recreate33
        ⟨some 11, false⟩ sampleManager 5 =
      ADPFManager.RegisterThreadIdsToHintSession HintTier.recreate33
        ⟨some 11, false⟩ sampleManager) ∧
    ((ADPFManager.RemoveThreadIdFromHintSession HintTier.recreate33
        ⟨some 11, false⟩ sampleManager 5).2.1 =
      [PEvent.closeSession 4, PEvent.createSession [100] 16666666]) := by
  have h := c9_remove_absent_still_syncs HintTier.recreate33 ⟨some 11, false⟩
    sampleManager 5 (by decide)
  exact ⟨by decide, h.1, h.2 4 (by decide)⟩

/-- The destructor guard on the thermal-manager release (adpf_manager.h line
67) reads `#if __ANDROID_API >= 30` — without the trailing underscores of the
real `__ANDROID_API__` macro.  `__ANDROID_API` is defined nowhere, and in a
preprocessor `#if` an undefined identifier evaluates to 0. -/
def ANDROID_API_misspelled : Int := 0

/-- Whether the destructor's `AThermal_releaseManager` block is compiled in:
the guard evaluates `0 >= 30`, false on every build. -/
def dtorThermalReleaseCompiled : Bool :=
  decide (ANDROID_API_misspelled ≥ 30)

/-- `ADPFManager::~ADPFManager()` (adpf_manager.h lines 60-86): when `app_`
is non-null, delete the power-service global ref when held; the
`AThermal_releaseManager` step sits behind the mistyped guard (see
`dtorThermalReleaseCompiled`); then on `__ANDROID_API__ >= 33` builds close
`hint_session_` when non-null, and otherwise delete the perf-hint service and
session global refs when held. -/
def ADPFManager.dtor (tier : HintTier) (m : ADPFManager) : List PEvent :=
  match m.app_ with
  | none => []
  | some _ =>
      (match m.obj_power_service_ with
       | some r => [PEvent.deleteGlobalRef r]
       | none => []) ++
      (if dtorThermalReleaseCompiled then
        match m.thermal_manager_ with
        | some t => [PEvent.releaseThermalManager t]
        | none => []
       else []) ++
      (match tier with
       | HintTier.direct34 | HintTier.recreate33 =>
           match m.hint_session_ with
           | some s => [PEvent.closeSession s]
           | none => []
       | HintTier.reflective =>
           (match m.obj_perfhint_service_ with
            | some r => [PEvent.deleteGlobalRef r]
            | none => []) ++
           (match m.obj_perfhint_session_ with
            | some r => [PEvent.deleteGlobalRef r]
            | none => []))

/-- C6: the destructor performs NO release of the thermal manager handle, on
any tier and in any state — the `#if __ANDROID_API >= 30` guard (missing the
trailing underscores) evaluates the undefined macro to 0 and compiles the
`AThermal_releaseManager` call out of every build; concretely, tearing down
a fully initialized direct-tier manager holding thermal handle 7 emits only
the power-service ref deletion and the session close. -/
theorem c6_thermal_manager_never_released (tier : HintTier)
    (m : ADPFManager) (t : Nat) :
    (PEvent.releaseThermalManager t ∉ ADPFManager.dtor tier m) ∧
    (ADPFManager.dtor HintTier.recreate33 sampleManager =
      [PEvent.deleteGlobalRef 2, PEvent.closeSession 4]) ∧
    sampleManager.thermal_manager_ = some 7 := by
  refine ⟨?_, by decide, by decide⟩
  unfold ADPFManager.dtor dtorThermalReleaseCompiled
    ANDROID_API_misspelled
  cases happ : m.app_
  · simp
  · cases tier <;>
      cases hps : m.obj_power_service_ <;>
      cases hhs : m.hint_session_ <;>
      cases hpfsvc : m.obj_perfhint_service_ <;>
      cases hpfses : m.obj_perfhint_session_ <;>
      simp
